import Mathlib

/-!
Verification development for `src/wireviz/wv_gv_html.py`: a shallow embedding
of the GraphViz-HTML table assembly module of WireViz, with theorems checking
the natural-language specification against the code.

Python values are embedded as follows: optional strings become `Option String`
(with Python truthiness captured by `strTruthy`, under which `none` and the
empty string are falsy); Python exceptions become `Except String`; mutation of
a component is made explicit by returning the updated component.

The table markup primitives (`Td`, `Tr`, `Table`, `Img`) come from
`wireviz.wv_table_util`, and the helpers `remove_links`, `pn_info_string`
(`wireviz.wv_helper`), `translate_color`, `get_color_hex`
(`wireviz.wv_colors`) are external to the given sources; they are modelled
from the spec where needed, as marked in their doc comments.
-/

set_option maxRecDepth 4000

namespace WirevizGv

/-- Python truthiness for an optional string: `None` and `""` are falsy. -/
def strTruthy : Option String → Bool
  | some s => s != ""
  | none => false

/-- Python truthiness for an optional number: `None` and `0` are falsy. -/
def natTruthy : Option Nat → Bool
  | some n => n != 0
  | none => false

/-- Python `f"{x}"` on an optional string: `None` prints as `"None"`. -/
def fstr : Option String → String
  | some s => s
  | none => "None"

/-! ## Table markup primitives

Modelled from the spec: `wireviz.wv_table_util` is not among the given
sources.  The spec describes "a small set of constructors representing nested
markup (table, row, cell, image)"; we model them as plain tagged trees whose
attributes are an ordered association list of string key/value pairs. -/

mutual
inductive Contents where
  | str (s : String)
  | table (t : Table)
  | img (scale : Option String) (src : String)

inductive Td where
  | mk (contents : Option Contents) (attribs : List (String × String))

inductive Tr where
  | mk (cells : List Td)

inductive Table where
  | mk (rows : List Tr) (attribs : List (String × String))
end

def Td.contents : Td → Option Contents
  | .mk c _ => c

def Td.attribs : Td → List (String × String)
  | .mk _ a => a

def Tr.cells : Tr → List Td
  | .mk cs => cs

def Table.rows : Table → List Tr
  | .mk r _ => r

def Table.attribs : Table → List (String × String)
  | .mk _ a => a

/-- Embeds `attribs.get(key, dflt)` on the attribute association list. -/
def getAttrD (attribs : List (String × String)) (key dflt : String) : String :=
  match attribs.lookup key with
  | some v => v
  | none => dflt

/-- Set one attribute, replacing an existing binding of the same key. -/
def setAttr (attribs : List (String × String)) (key v : String) :
    List (String × String) :=
  if attribs.any (fun p => p.1 == key) then
    attribs.map (fun p => if p.1 == key then (key, v) else p)
  else
    attribs ++ [(key, v)]

/-- Modelled from the spec: `update_attribs` of `wv_table_util`; keyword
arguments whose value is `None` are skipped rather than stored. -/
def updateAttribs (attribs : List (String × String)) :
    List (String × Option String) → List (String × String)
  | [] => attribs
  | (k, some v) :: rest => updateAttribs (setAttr attribs k v) rest
  | (_, none) :: rest => updateAttribs attribs rest

def Td.update_attribs (td : Td) (upds : List (String × Option String)) : Td :=
  .mk td.contents (updateAttribs td.attribs upds)

def Table.update_attribs (tbl : Table) (upds : List (String × Option String)) :
    Table :=
  .mk tbl.rows (updateAttribs tbl.attribs upds)

/-- Modelled from the spec: the `Tr` constructor of `wv_table_util` receives
cell lists that may contain `None` entries (sides the connector does not
expose are "omitted"); `None` cells are dropped. -/
def mkTr (cells : List (Option Td)) : Tr :=
  .mk (cells.filterMap id)

/-! ## Input lines of the nested-table builder

A "line" handed to `nested_table` is, per the source, `None`, a scalar value
(string, `Td` or `Table`), or a list whose items are `None`, strings or `Td`
cells.  The dynamic typing is embedded as a small tagged union. -/

inductive CellItem where
  | none
  | str (s : String)
  | td (t : Td)
  | table (t : Table)

inductive Line where
  | scalar (item : CellItem)
  | list (items : List CellItem)

/-- Embeds `item if isinstance(item, Td) else Td(item)`. -/
def cellOfItem : CellItem → Td
  | .none => .mk Option.none []
  | .str s => .mk (some (.str s)) []
  | .td t => t
  | .table t => .mk (some (.table t)) []

/-- Embeds `make_list_of_cells` (`wv_gv_html.py`, lines 101-113). -/
def make_list_of_cells : Line → List Td
  | .list items => items.map cellOfItem
  | .scalar .none => []
  | .scalar (.td t) => [t]
  | .scalar x => [cellOfItem x]

/-- The inner-table selection of `nested_table` (lines 126-139): a single cell
that already holds a table is embedded directly unless its `id` attribute
contains `"!"`; otherwise the cells are wrapped in a one-row table. -/
def innerTableOf (cells : List Td) : Table :=
  match cells with
  | [Td.mk (some (Contents.table t)) _] =>
    if (getAttrD t.attribs "id" "").contains '!' then
      .mk [.mk cells]
        [("border", "0"), ("cellspacing", "0"), ("cellpadding", "3"),
         ("cellborder", "1")]
    else t
  | _ =>
    .mk [.mk cells]
      [("border", "0"), ("cellspacing", "0"), ("cellpadding", "3"),
       ("cellborder", "1")]

/-- One iteration of the row-building loop of `nested_table`
(lines 120-140). -/
def nestedStep (rows : List Tr) (line : Line) : List Tr :=
  let lst := make_list_of_cells line
  if lst.length = 0 then rows
  else
    let cells := lst.filter (fun td => td.contents.isSome)
    if cells.length = 0 then rows
    else rows ++ [Tr.mk [Td.mk (some (.table (innerTableOf cells))) []]]

/-- The row list accumulated by the loop of `nested_table`. -/
def nestedRows (lines : List Line) : List Tr :=
  lines.foldl nestedStep []

/-- Embeds `nested_table` (lines 116-145): build the rows, substituting one dummy
row holding an empty cell when no row survived. -/
def nested_table (lines : List Line) : Table :=
  let rows := nestedRows lines
  if rows.length = 0 then
    .mk [.mk [.mk (some (.str "")) []]]
      [("border", "0"), ("cellspacing", "0"), ("cellpadding", "0")]
  else
    .mk rows [("border", "0"), ("cellspacing", "0"), ("cellpadding", "0")]

/-! ### Spec-side characterisations for the nested-table claims -/

/-- Spec-side reformulation of the loop body: the row a line contributes, if
any.  Compared against `nestedStep` in the claim about row filtering. -/
def rowOfLine (line : Line) : Option Tr :=
  let lst := make_list_of_cells line
  if lst.length = 0 then Option.none
  else
    let cells := lst.filter (fun td => td.contents.isSome)
    if cells.length = 0 then Option.none
    else some (Tr.mk [Td.mk (some (.table (innerTableOf cells))) []])

/-- A line that is `None`, an empty list, or a list of only `None`. -/
def isEmptyishLine : Line → Bool
  | .scalar .none => true
  | .list items => items.all (fun i => match i with | .none => true | _ => false)
  | _ => false

theorem nestedStep_eq_rowOfLine (rows : List Tr) (line : Line) :
    nestedStep rows line = rows ++ (rowOfLine line).toList := by
  simp only [nestedStep, rowOfLine]
  by_cases h1 : (make_list_of_cells line).length = 0
  · simp [h1]
  · simp only [h1, if_false]
    by_cases h2 :
        ((make_list_of_cells line).filter (fun td => td.contents.isSome)).length = 0
    · simp [h2]
    · simp [h2]

theorem nestedRows_foldl_eq (lines : List Line) (acc : List Tr) :
    lines.foldl nestedStep acc = acc ++ lines.filterMap rowOfLine := by
  induction lines generalizing acc with
  | nil => simp
  | cons l ls ih =>
    simp only [List.foldl, List.filterMap]
    rw [nestedStep_eq_rowOfLine, ih]
    cases h : rowOfLine l <;> simp [Option.toList]

theorem nestedRows_eq_filterMap (lines : List Line) :
    nestedRows lines = lines.filterMap rowOfLine := by
  simpa using nestedRows_foldl_eq lines []

theorem rowOfLine_emptyish {line : Line} (h : isEmptyishLine line = true) :
    rowOfLine line = Option.none := by
  cases line with
  | scalar item =>
    cases item <;> simp_all [isEmptyishLine, rowOfLine, make_list_of_cells]
  | list items =>
    simp only [isEmptyishLine, List.all_eq_true] at h
    simp only [rowOfLine, make_list_of_cells]
    by_cases h1 : (items.map cellOfItem).length = 0
    · simp [h1]
    · simp only [h1, if_false]
      have hcells : (items.map cellOfItem).filter
          (fun td => td.contents.isSome) = [] := by
        rw [List.filter_eq_nil_iff]
        intro td htd
        rw [List.mem_map] at htd
        obtain ⟨i, hi, rfl⟩ := htd
        have := h i hi
        cases i <;> simp_all [cellOfItem, Td.contents]
      simp [hcells]

/-- Claim C1: for every input line list whose entries are all `None`, empty
lists, or lists containing only `None` values, `nested_table` returns a table
with exactly one row containing one empty cell (the placeholder row), never a
zero-row table. -/
theorem C1_nested_table_placeholder (lines : List Line)
    (h : ∀ l ∈ lines, isEmptyishLine l = true) :
    nested_table lines =
      Table.mk [Tr.mk [Td.mk (some (.str "")) []]]
        [("border", "0"), ("cellspacing", "0"), ("cellpadding", "0")] := by
  have hrows : nestedRows lines = [] := by
    rw [nestedRows_eq_filterMap, List.filterMap_eq_nil_iff]
    intro l hl
    exact rowOfLine_emptyish (h l hl)
  simp [nested_table, hrows]

/-- Witness for C1 at a concrete all-empty line list. -/
theorem C1_nested_table_placeholder_witness :
    nested_table [Line.scalar .none, Line.list [], Line.list [.none, .none]] =
      Table.mk [Tr.mk [Td.mk (some (.str "")) []]]
        [("border", "0"), ("cellspacing", "0"), ("cellpadding", "0")] :=
  C1_nested_table_placeholder _ (by intro l hl; fin_cases hl <;> rfl)

/-- Claim C2: `nested_table` emits no row for any line that is `None`, an
empty list, or a list whose entries are all `None`, and the rows it does emit
appear in exactly the order of their source lines, one row per surviving line
(`rowOfLine` is the per-line row builder, applied in input order via
`List.filterMap`); when at least one row survives, these are exactly the rows
of the resulting table. -/
theorem C2_nested_table_row_order (lines : List Line) :
    nestedRows lines = lines.filterMap rowOfLine ∧
    (∀ line : Line, isEmptyishLine line = true → rowOfLine line = Option.none) ∧
    (lines.filterMap rowOfLine ≠ [] →
      (nested_table lines).rows = lines.filterMap rowOfLine) := by
  refine ⟨nestedRows_eq_filterMap lines, fun _ h => rowOfLine_emptyish h, ?_⟩
  intro hne
  have hrows := nestedRows_eq_filterMap lines
  simp only [nested_table, hrows]
  rcases h : lines.filterMap rowOfLine with _ | ⟨r, rs⟩
  · exact absurd h hne
  · simp [Table.rows]

/-- Witness for C2 at a concrete line list mixing dropped and surviving
lines. -/
theorem C2_nested_table_row_order_witness :
    nestedRows [Line.scalar .none, Line.scalar (.str "a"), Line.list [.none]] =
      [Line.scalar .none, Line.scalar (.str "a"),
        Line.list [.none]].filterMap rowOfLine ∧
    rowOfLine (Line.list [.none, .none]) = Option.none :=
  ⟨(C2_nested_table_row_order _).1,
   (C2_nested_table_row_order []).2.1 _ (by rfl)⟩

/-! ## Modelled external helpers -/

/-- Skip the remainder of an `<a ...>` opening tag (state `inTag = true`), and
detect openings of such tags otherwise. -/
def dropATags : Bool → List Char → List Char
  | _, [] => []
  | true, c :: rest => if c = '>' then dropATags false rest else dropATags true rest
  | false, '<' :: 'a' :: ' ' :: rest => dropATags true rest
  | false, c :: rest => c :: dropATags false rest

/-- Drop every `</a>` closing tag. -/
def dropCloseA : List Char → List Char
  | '<' :: '/' :: 'a' :: '>' :: rest => dropCloseA rest
  | c :: rest => c :: dropCloseA rest
  | [] => []

/-- Modelled from the spec: `remove_links` of `wireviz.wv_helper` is not among
the given sources.  The spec says hyperlink wrapping is stripped, leaving the
wrapped text; we model links as `<a ...>text</a>` and delete the opening and
closing tags. -/
def remove_links (s : String) : String :=
  String.mk (dropCloseA (dropATags false s.data))

/-- Python `str.replace("\n", "<br />")`, specialised to the one-character
pattern: every newline is replaced. -/
def replaceNl : List Char → List Char
  | [] => []
  | '\n' :: rest => '<' :: 'b' :: 'r' :: ' ' :: '/' :: '>' :: replaceNl rest
  | c :: rest => c :: replaceNl rest

/-- Embeds `html_line_breaks` (lines 424-425): strings are first stripped of link
markup, then embedded newlines become `<br />`; the non-string input (`None`)
is returned unchanged. -/
def html_line_breaks : Option String → Option String
  | some s => some (String.mk (replaceNl (remove_links s).data))
  | none => none

/-- Modelled from the spec: `pn_info_string` of `wireviz.wv_helper` is not
among the given sources.  The spec says: "emit a label only if at least one of
{reference, number} is present; join available identifying fields". -/
def pn_info_string (header : String) (name number : Option String) :
    Option String :=
  if strTruthy name || strTruthy number then
    some (header ++ ": " ++
      String.intercalate " " (([name, number].filterMap id).filter
        (fun s => s != "")))
  else none

/-- Modelled from the spec: `translate_color` of `wireviz.wv_colors` is an
external collaborator (color-name translation is a declared non-goal);
modelled as the identity on the optional color string. -/
def translate_color (c : Option String) (_mode : String) : Option String := c

/-- Modelled from the spec: `get_color_hex` of `wireviz.wv_colors` is an
external collaborator; it yields the color sequence of a wire as a list of
hex segments, modelled as the one-segment list of the given color. -/
def get_color_hex (c : String) (_pad : Bool) : List String := [c]

/-! ## Data model (`wireviz.DataClasses`, as used by this module) -/

structure Image where
  src : String
  scale : Option String
  width : Option Nat
  height : Option Nat
  fixedsize : Bool
  bgcolor : Option String
  caption : Option String

structure Connector where
  name : String
  show_name : Bool
  bgcolor : Option String
  bgcolor_title : Option String
  color : Option String
  pn : Option String
  manufacturer : Option String
  mpn : Option String
  supplier : Option String
  spn : Option String
  image : Option Image
  notes : Option String
  type : Option String
  subtype : Option String
  pincount : Nat
  show_pincount : Bool
  style : Option String
  ports_left : Bool
  ports_right : Bool
  pins : List String
  pinlabels : List (Option String)
  pincolors : List (Option String)
  loops : List (Nat × Nat)
  should_show_pin : Option String → Bool

structure WireClass where
  id : String
  index : Nat
  color : Option String
  label : Option String

inductive WireObj where
  | wire (w : WireClass)
  | shield (w : WireClass)

def WireObj.cls : WireObj → WireClass
  | .wire w => w
  | .shield w => w

/-- Embeds `isinstance(wire, ShieldClass)`. -/
def WireObj.isShield : WireObj → Bool
  | .wire _ => false
  | .shield _ => true

/-- An endpoint reference (`conn.via` / `conn.from_` / `conn.to`): parent
component name, pin or wire id, 0-based index, optional label; for a `via`
reference (the wire itself) also the wire's color. -/
structure PinRef where
  parent : String
  id : String
  index : Nat
  label : Option String
  color : Option String := none

structure Connection where
  via : PinRef
  from_ : Option PinRef
  to_ : Option PinRef

structure Cable where
  name : String
  show_name : Bool
  bgcolor : Option String
  bgcolor_title : Option String
  color : Option String
  pn : Option String
  manufacturer : Option String
  mpn : Option String
  supplier : Option String
  spn : Option String
  image : Option Image
  notes : Option String
  type : Option String
  wirecount : Nat
  show_wirecount : Bool
  gauge : Option String
  gauge_str : Option String
  shield : Bool
  length : Nat
  length_unit : Option String
  wire_objects : List WireObj
  connections : List Connection
  show_wirenumbers : Bool

/-- The tagged union over the two component variants handled here. -/
inductive Component where
  | connector (c : Connector)
  | cable (c : Cable)

def Component.name : Component → String
  | .connector c => c.name
  | .cable c => c.name

def Component.show_name : Component → Bool
  | .connector c => c.show_name
  | .cable c => c.show_name

def Component.bgcolor : Component → Option String
  | .connector c => c.bgcolor
  | .cable c => c.bgcolor

def Component.bgcolor_title : Component → Option String
  | .connector c => c.bgcolor_title
  | .cable c => c.bgcolor_title

def Component.pn : Component → Option String
  | .connector c => c.pn
  | .cable c => c.pn

def Component.manufacturer : Component → Option String
  | .connector c => c.manufacturer
  | .cable c => c.manufacturer

def Component.mpn : Component → Option String
  | .connector c => c.mpn
  | .cable c => c.mpn

def Component.supplier : Component → Option String
  | .connector c => c.supplier
  | .cable c => c.supplier

def Component.spn : Component → Option String
  | .connector c => c.spn
  | .cable c => c.spn

def Component.image : Component → Option Image
  | .connector c => c.image
  | .cable c => c.image

def Component.notes : Component → Option String
  | .connector c => c.notes
  | .cable c => c.notes

/-- Render options (`wireviz.DataClasses.Options`), restricted to the fields
this module reads. -/
structure Options where
  color_mode : String
  bgcolor_connector : Option String
  bgcolor_cable : Option String
  _pad : Bool

/-! ## Value formatting helpers from the source -/

def HEADER_PN : String := "P/N"
def HEADER_MPN : String := "MPN"
def HEADER_SPN : String := "SPN"

/-- Embeds `colored_cell` (lines 356-357). -/
def colored_cell (contents : String) (bgcolor : Option String) : Td :=
  .mk (some (.str contents))
    (updateAttribs [] [("bgcolor", translate_color bgcolor "HEX")])

/-- Embeds `part_number_str_list` (lines 360-369). -/
def part_number_str_list (component : Component) :
    Option (List (Option String)) :=
  let cell_contents : List (Option String) :=
    [pn_info_string HEADER_PN none component.pn,
     pn_info_string HEADER_MPN component.manufacturer component.mpn,
     pn_info_string HEADER_SPN component.supplier component.spn]
  if cell_contents.any strTruthy then
    some (cell_contents.map html_line_breaks)
  else none

/-- Embeds `colorbar_cell` (lines 372-376). -/
def colorbar_cell (color : Option String) : Option Td :=
  if strTruthy color then
    some (.mk (some (.str ""))
      (updateAttribs [] [("bgcolor", translate_color color "HEX"),
                         ("width", some "4")]))
  else none

/-- Claim C6: for every component with `pn = "X"` and manufacturer, mpn,
supplier, spn all absent, `part_number_str_list` returns a list whose only
non-`None` entry is `"P/N: X"`; for every component with all five part-number
fields absent, it returns no block (`None`). -/
theorem C6_part_number_str_list (component : Component) :
    (component.pn = some "X" → component.manufacturer = none →
      component.mpn = none → component.supplier = none →
      component.spn = none →
      part_number_str_list component = some [some "P/N: X", none, none] ∧
      ((part_number_str_list component).getD []).filterMap id = ["P/N: X"]) ∧
    (component.pn = none → component.manufacturer = none →
      component.mpn = none → component.supplier = none →
      component.spn = none →
      part_number_str_list component = none) := by
  constructor
  · intro h1 h2 h3 h4 h5
    have hlist : part_number_str_list component =
        some [some "P/N: X", none, none] := by
      simp only [part_number_str_list, h1, h2, h3, h4, h5]
      rfl
    exact ⟨hlist, by rw [hlist]; rfl⟩
  · intro h1 h2 h3 h4 h5
    simp only [part_number_str_list, h1, h2, h3, h4, h5]
    rfl

/-- A connector whose only part-number field is `pn = "X"`. -/
def connectorOnlyPn : Connector :=
  { name := "J1", show_name := true, bgcolor := none, bgcolor_title := none,
    color := none, pn := some "X", manufacturer := none, mpn := none,
    supplier := none, spn := none, image := none, notes := none, type := none,
    subtype := none, pincount := 0, show_pincount := false, style := none,
    ports_left := true, ports_right := false, pins := [], pinlabels := [],
    pincolors := [], loops := [], should_show_pin := fun _ => true }

/-- A connector with all five part-number fields absent. -/
def connectorNoPn : Connector :=
  { connectorOnlyPn with name := "J2", pn := none }

/-- Witness for C6 at two concrete connectors: one with only `pn = "X"` set,
one with all part-number fields absent. -/
theorem C6_part_number_str_list_witness :
    part_number_str_list (Component.connector connectorOnlyPn) =
      some [some "P/N: X", none, none] ∧
    part_number_str_list (Component.connector connectorNoPn) = none :=
  ⟨((C6_part_number_str_list
      (Component.connector connectorOnlyPn)).1 rfl rfl rfl rfl rfl).1,
   (C6_part_number_str_list
      (Component.connector connectorNoPn)).2 rfl rfl rfl rfl rfl⟩

/-- Claim C9: `html_line_breaks` first strips link markup and then replaces
every newline character with `"<br />"`; in particular `"a\nb"` (with no
links) yields `"a<br />b"`, a link-wrapped input is unwrapped before break
substitution, and the non-string input is returned unchanged. -/
theorem C9_html_line_breaks :
    (∀ s : String, html_line_breaks (some s) =
      some (String.mk (replaceNl (remove_links s).data))) ∧
    html_line_breaks (some "a\nb") = some "a<br />b" ∧
    html_line_breaks (some "see <a href=\"x\">docs</a>\nend") =
      some "see docs<br />end" ∧
    html_line_breaks none = none := by
  refine ⟨fun s => rfl, ?_, ?_, rfl⟩ <;> rfl

/-! ## Pin table -/

/-- Embeds `itertools.zip_longest` over the three pin lists, filling with `None`. -/
def zipLongest3 (ps : List String) (ls cs : List (Option String)) :
    List (Option String × Option String × Option String) :=
  (List.range (max ps.length (max ls.length cs.length))).map
    (fun i => (ps.get? i, (ls.get? i).join, (cs.get? i).join))

/-- Embeds `gv_pin_row` (lines 165-176).  The `pin_color` argument is accepted and
ignored, as in the source. -/
def gv_pin_row (pin_index : Nat) (pin_name pin_label : Option String)
    (_pin_color : Option String) (connector : Connector) : Tr :=
  let cell_pin_left : Td :=
    .mk (pin_name.map .str) [("port", "p" ++ toString (pin_index + 1) ++ "l")]
  let cell_pin_label : Td :=
    .mk (pin_label.map .str) [("delete_if_empty", "True")]
  let cell_pin_right : Td :=
    .mk (pin_name.map .str) [("port", "p" ++ toString (pin_index + 1) ++ "r")]
  mkTr [if connector.ports_left then some cell_pin_left else none,
        some cell_pin_label,
        if connector.ports_right then some cell_pin_right else none]

/-- Embeds `gv_pin_table` (lines 148-162). -/
def gv_pin_table (component : Connector) : Table :=
  let pin_tuples := zipLongest3 component.pins component.pinlabels
    component.pincolors
  let pin_rows := (pin_tuples.enum.filter
      (fun p => component.should_show_pin p.2.1)).map
    (fun p => gv_pin_row p.1 p.2.1 p.2.2.1 p.2.2.2 component)
  .mk pin_rows
    [("border", "0"), ("cellspacing", "0"), ("cellpadding", "3"),
     ("cellborder", "1")]

/-! ## Conductor table -/

/-- A spacer row `Tr(Td("&nbsp;"))`. -/
def spacerRow : Tr := .mk [.mk (some (.str "&nbsp;")) []]

/-- Embeds `gv_wire_cell` (lines 244-271). -/
def gv_wire_cell (wire : WireClass) (padding : Bool) : Td :=
  let color_list :=
    if strTruthy wire.color then
      ["#000000"] ++ get_color_hex (wire.color.getD "") padding ++ ["#000000"]
    else ["#000000"]
  let wire_inner_rows := color_list.reverse.map (fun bgcolor =>
    Tr.mk [Td.mk (some (.str ""))
      [("colspan", "3"), ("cellpadding", "0"), ("height", "2"),
       ("border", "0"), ("bgcolor", if bgcolor != "" then bgcolor else "BK")]])
  let wire_inner_table : Table :=
    .mk wire_inner_rows [("cellspacing", "0"), ("cellborder", "0"), ("border", "0")]
  .mk (some (.table wire_inner_table))
    [("colspan", "3"), ("border", "0"), ("cellspacing", "0"),
     ("port", "w" ++ toString (wire.index + 1)),
     ("height", toString (2 * color_list.length))]

/-- The label prefixed with `":"` when truthy (`f":{label}" if label else ""`). -/
def labelSuffix (label : Option String) : String :=
  if strTruthy label then ":" ++ label.getD "" else ""

/-- The info row above a wire (lines 208-230): wire number (if enabled, and
not a shield), translated color and label, flanked by the comma-joined
endpoint strings gathered from the cable's connection list. -/
def wireInfoRow (cable : Cable) (harness_options : Options) (wire : WireObj) :
    Tr :=
  let wireinfo : List (Option String) :=
    (if cable.show_wirenumbers && !wire.isShield then [some wire.cls.id] else [])
      ++ [translate_color wire.cls.color harness_options.color_mode,
          wire.cls.label]
  let ins := cable.connections.filterMap (fun conn =>
    if conn.via.id == wire.cls.id then
      conn.from_.map (fun f => f.parent ++ ":" ++ f.id ++ labelSuffix f.label)
    else none)
  let outs := cable.connections.filterMap (fun conn =>
    if conn.via.id == wire.cls.id then
      conn.to_.map (fun t => t.parent ++ ":" ++ t.id ++ labelSuffix t.label)
    else none)
  .mk [.mk (some (.str (String.intercalate ", " ins))) [],
       .mk (some (.str (String.intercalate ":" (wireinfo.filterMap id)))) [],
       .mk (some (.str (String.intercalate ", " outs))) []]

/-- The row holding the wire bar itself (line 233). -/
def wireBarRow (harness_options : Options) (wire : WireObj) : Tr :=
  .mk [gv_wire_cell wire.cls harness_options._pad]

/-- The loop of `gv_conductor_table` (lines 200-237): per wire an info row and
a bar row, with one spacer row inserted right before the first shield; the
flag records whether that spacer was already inserted. -/
def conductorRowsAux (cable : Cable) (harness_options : Options) :
    List WireObj → Bool → List Tr
  | [], _ => []
  | wire :: rest, inserted =>
    (if wire.isShield && !inserted then [spacerRow] else []) ++
    [wireInfoRow cable harness_options wire,
     wireBarRow harness_options wire] ++
    conductorRowsAux cable harness_options rest (inserted || wire.isShield)

/-- Embeds `gv_conductor_table` (lines 196-241). -/
def gv_conductor_table (cable : Cable) (harness_options : Options) : Table :=
  .mk (spacerRow ::
       (conductorRowsAux cable harness_options cable.wire_objects false ++
        [spacerRow]))
    [("border", "0"), ("cellspacing", "0"), ("cellborder", "0")]

/-- Claim C3: for every cable whose `wire_objects` are exactly three plain
wires followed by one shield, `gv_conductor_table` returns a table with
exactly 11 rows: a top spacer row, then for each of the three wires an info
row immediately followed by its wire-bar row, then one spacer row inserted
once just before the first shield, then the shield's info row and wire-bar
row, then one bottom spacer row. -/
theorem C3_conductor_table_rows (w1 w2 w3 sh : WireClass) (cable : Cable)
    (harness_options : Options)
    (h : cable.wire_objects =
      [.wire w1, .wire w2, .wire w3, .shield sh]) :
    (gv_conductor_table cable harness_options).rows =
      [spacerRow,
       wireInfoRow cable harness_options (.wire w1),
       wireBarRow harness_options (.wire w1),
       wireInfoRow cable harness_options (.wire w2),
       wireBarRow harness_options (.wire w2),
       wireInfoRow cable harness_options (.wire w3),
       wireBarRow harness_options (.wire w3),
       spacerRow,
       wireInfoRow cable harness_options (.shield sh),
       wireBarRow harness_options (.shield sh),
       spacerRow] ∧
    (gv_conductor_table cable harness_options).rows.length = 11 := by
  constructor <;>
    simp [gv_conductor_table, h, conductorRowsAux, WireObj.isShield, Table.rows]

/-- A cable with three plain wires and one shield. -/
def cableThreeWiresOneShield : Cable :=
  { name := "W1", show_name := true, bgcolor := none, bgcolor_title := none,
    color := none, pn := none, manufacturer := none, mpn := none,
    supplier := none, spn := none, image := none, notes := none, type := none,
    wirecount := 3, show_wirecount := true, gauge := none, gauge_str := none,
    shield := true, length := 0, length_unit := none,
    wire_objects :=
      [.wire { id := "1", index := 0, color := some "RD", label := none },
       .wire { id := "2", index := 1, color := some "GN", label := none },
       .wire { id := "3", index := 2, color := some "BU", label := none },
       .shield { id := "s", index := 3, color := none, label := none }],
    connections := [], show_wirenumbers := true }

/-- Witness for C3 at a concrete cable with wires 1..3 and one shield. -/
theorem C3_conductor_table_rows_witness :
    (gv_conductor_table cableThreeWiresOneShield
      { color_mode := "SHORT", bgcolor_connector := none,
        bgcolor_cable := none, _pad := false }).rows.length = 11 :=
  (C3_conductor_table_rows _ _ _ _ cableThreeWiresOneShield _ rfl).2

/-! ## Connector loops -/

/-- Embeds `gv_connector_loops` (lines 179-193): raises when the connector exposes
neither side, otherwise one head/tail pair per declared loop on the exposed
side. -/
def gv_connector_loops (connector : Connector) :
    Except String (List (String × String)) :=
  match (if connector.ports_left then some ("l", "w")
         else if connector.ports_right then some ("r", "e")
         else none : Option (String × String)) with
  | none => .error "No side for loops"
  | some (loop_side, loop_dir) =>
    .ok (connector.loops.map (fun loop =>
      (connector.name ++ ":p" ++ toString loop.1 ++ loop_side ++ ":" ++ loop_dir,
       connector.name ++ ":p" ++ toString loop.2 ++ loop_side ++ ":" ++ loop_dir)))

/-- Claim C4: a connector exposing neither side with at least one declared
loop makes `gv_connector_loops` raise a configuration error (no loop-edge list
is returned); a connector exposing at least one side yields exactly one edge
descriptor per declared loop, connecting the two pin ports on the exposed
side. -/
theorem C4_connector_loops (connector : Connector) :
    (connector.ports_left = false → connector.ports_right = false →
      connector.loops ≠ [] →
      gv_connector_loops connector = .error "No side for loops") ∧
    ((connector.ports_left = true ∨ connector.ports_right = true) →
      gv_connector_loops connector =
        .ok (connector.loops.map (fun loop =>
          let side := if connector.ports_left then "l" else "r"
          let dir := if connector.ports_left then "w" else "e"
          (connector.name ++ ":p" ++ toString loop.1 ++ side ++ ":" ++ dir,
           connector.name ++ ":p" ++ toString loop.2 ++ side ++ ":" ++ dir))) ∧
      ∀ edges, gv_connector_loops connector = .ok edges →
        edges.length = connector.loops.length) := by
  constructor
  · intro hl hr _
    simp [gv_connector_loops, hl, hr]
  · intro hside
    have hcase : connector.ports_left = true ∨
        (connector.ports_left = false ∧ connector.ports_right = true) := by
      rcases hside with h | h
      · exact Or.inl h
      · rcases hb : connector.ports_left with _ | _
        · exact Or.inr ⟨rfl, h⟩
        · exact Or.inl rfl
    rcases hcase with h | ⟨hl, hr⟩
    · refine ⟨by simp [gv_connector_loops, h], ?_⟩
      intro edges hedges
      simp [gv_connector_loops, h] at hedges
      simp [← hedges]
    · refine ⟨by simp [gv_connector_loops, hl, hr], ?_⟩
      intro edges hedges
      simp [gv_connector_loops, hl, hr] at hedges
      simp [← hedges]

/-- A connector exposing neither side, with one declared loop. -/
def connectorNoSides : Connector :=
  { connectorOnlyPn with
    name := "J3"
    pn := none
    ports_left := false
    ports_right := false
    loops := [(1, 2)] }

/-- A connector exposing the left side, with one declared loop. -/
def connectorLeftSide : Connector :=
  { connectorNoSides with name := "J4", ports_left := true }

/-- Witness for C4: the no-side connector raises; the left-side connector
yields one loop edge on the left pin ports. -/
theorem C4_connector_loops_witness :
    gv_connector_loops connectorNoSides = .error "No side for loops" ∧
    gv_connector_loops connectorLeftSide =
      .ok [("J4:p1l:w", "J4:p2l:w")] :=
  ⟨(C4_connector_loops connectorNoSides).1 rfl rfl (by decide),
   by
    have h := ((C4_connector_loops connectorLeftSide).2 (Or.inl rfl)).1
    rw [h]; rfl⟩

/-! ## Edge wires -/

/-- The harness as read by `gv_edge_wire`: connector lookup by name plus the
render options. -/
structure Harness where
  connectors : String → Connector
  options : Options

/-- Embeds `gv_edge_wire` (lines 316-353).  The right-hand branch reads
`connection.from_.parent` (as in the source); when `from_` is `None` that
access raises, embedded as an `Except.error`. -/
def gv_edge_wire (harness : Harness) (_cable : Cable)
    (connection : Connection) :
    Except String
      (String × Option String × Option String × Option String × Option String) :=
  let color :=
    if strTruthy connection.via.color then
      let wire_color :=
        get_color_hex (connection.via.color.getD "") harness.options._pad
      String.intercalate ":" (["#000000"] ++ wire_color ++ ["#000000"])
    else
      -- shield branch; its inner test repeats the falsy condition (dead code
      -- kept from the source)
      if strTruthy connection.via.color then
        String.intercalate ":"
          ["#000000",
           (get_color_hex (connection.via.color.getD "") false).headD "",
           "#000000"]
      else "#000000"
  let left : Option String × Option String :=
    match connection.from_ with
    | some f =>
      let from_port_str :=
        if (harness.connectors f.parent).style != some "simple" then
          ":p" ++ toString (f.index + 1) ++ "r"
        else ""
      (some (f.parent ++ from_port_str ++ ":e"),
       some (connection.via.parent ++ ":w" ++
             toString (connection.via.index + 1) ++ ":w"))
    | none => (none, none)
  match connection.to_ with
  | some t =>
    match connection.from_ with
    | some f =>
      let to_port_str :=
        if (harness.connectors f.parent).style != some "simple" then
          ":p" ++ toString (t.index + 1) ++ "l"
        else ""
      .ok (color, left.1, left.2,
           some (connection.via.parent ++ ":w" ++
                 toString (connection.via.index + 1) ++ ":e"),
           some (t.parent ++ to_port_str ++ ":w"))
    | none =>
      .error "AttributeError: NoneType object has no attribute parent"
  | none => .ok (color, left.1, left.2, none, none)

/-- A connector named `"A"` with style `"simple"`. -/
def simpleConnA : Connector :=
  { connectorOnlyPn with
    name := "A"
    pn := none
    style := some "simple" }

/-- A connector named `"B"` whose style is not `"simple"`. -/
def normalConnB : Connector :=
  { connectorOnlyPn with
    name := "B"
    pn := none }

/-- A harness holding the simple connector `A` and the normal connector `B`. -/
def harnessAB : Harness :=
  { connectors := fun n => if n == "A" then simpleConnA else normalConnB
    options := { color_mode := "SHORT", bgcolor_connector := none,
                 bgcolor_cable := none, _pad := false } }

/-- A connection from pin 1 of `A` via wire 1 of `W` to pin 1 of `B`. -/
def connAtoB : Connection :=
  { via := { parent := "W", id := "1", index := 0, label := none }
    from_ := some { parent := "A", id := "1", index := 0, label := none }
    to_ := some { parent := "B", id := "1", index := 0, label := none } }

/-- Claim C5, evaluated at the failing input: the right endpoint's parent `B`
does not have style `"simple"`, yet the right port path string produced by
`gv_edge_wire` is `"B:w"`, with no pin-port segment — the code consults the
left endpoint's parent (`A`, style `"simple"`) for the right-hand side, so
the claimed equivalence fails. -/
theorem C5_edge_wire_right_style_bug :
    (harnessAB.connectors "B").style ≠ some "simple" ∧
    gv_edge_wire harnessAB cableThreeWiresOneShield connAtoB =
      .ok ("#000000", some "A:e", some "W:w1:w", some "W:w1:e", some "B:w") :=
  ⟨by decide, rfl⟩

/-! ## Image and caption cells -/

/-- Embeds `html_size_attr_dict` (lines 409-421). -/
def html_size_attr_dict (image : Option Image) : List (String × String) :=
  match image with
  | none => []
  | some image =>
    (if natTruthy image.width then
      [("width", toString (image.width.getD 0))] else []) ++
    (if natTruthy image.height then
      [("height", toString (image.height.getD 0))] else []) ++
    (if image.fixedsize then [("fixedsize", "true")] else [])

/-- Embeds `image_and_caption_cells` (lines 379-406). -/
def image_and_caption_cells (component : Component) : Option Td × Option Td :=
  match component.image with
  | none => (none, none)
  | some image =>
    let image_tag : Contents := .img image.scale image.src
    let image_cell_inner : Td := .mk (some image_tag) [("flat", "True")]
    let image_cell : Td :=
      if image.fixedsize then
        let sized := image_cell_inner.update_attribs
          ((html_size_attr_dict (some image)).map (fun p => (p.1, some p.2)))
        .mk (some (.table (.mk [.mk [sized]]
          [("border", "0"), ("cellspacing", "0"), ("cellborder", "0"),
           ("id", "!")]))) []
      else image_cell_inner
    let image_cell := image_cell.update_attribs
      [("balign", some "left"),
       ("bgcolor", translate_color image.bgcolor "HEX"),
       ("sides", if strTruthy image.caption then some "TLR" else none)]
    let caption_cell : Option Td :=
      if strTruthy image.caption then
        some (.mk (some (.str (fstr (html_line_breaks image.caption))))
          [("balign", "left"), ("sides", "BLR")])
      else none
    (some image_cell, caption_cell)

/-! ## Component node assembly -/

def itemOfOptStr : Option String → CellItem
  | some s => .str s
  | none => .none

def itemOfOptTd : Option Td → CellItem
  | some t => .td t
  | none => .none

def lineOfOptTd : Option Td → Line
  | some t => .scalar (.td t)
  | none => .scalar .none

/-- Embeds `gv_node_component` (lines 27-98).  The default-side mutation on the
connector is made explicit: the possibly updated component is returned
alongside the result.  The background-color variable is bound only in the
three branches of lines 89-94; reading it unassigned (line 97) is embedded as
an `Except.error` (Python's `UnboundLocalError`). -/
def gv_node_component (component : Component) (harness_options : Options) :
    Except String Table × Component :=
  let component :=
    match component with
    | .connector c =>
      if !(c.ports_left || c.ports_right) then
        Component.connector { c with ports_left := true }
      else Component.connector c
    | .cable c => Component.cable c
  let line_name : Line :=
    if component.show_name then
      .scalar (.td (colored_cell (remove_links component.name)
        component.bgcolor_title))
    else .scalar .none
  let line_pn : Line :=
    match part_number_str_list component with
    | some l => .list (l.map itemOfOptStr)
    | none => .scalar .none
  let line_info : Line :=
    match component with
    | .connector c =>
      .list [itemOfOptStr (html_line_breaks c.type),
             itemOfOptStr (html_line_breaks c.subtype),
             (if c.show_pincount then .str (toString c.pincount ++ "-pin")
              else .none),
             itemOfOptStr (translate_color c.color harness_options.color_mode),
             itemOfOptTd (colorbar_cell c.color)]
    | .cable c =>
      .list [itemOfOptStr (html_line_breaks c.type),
             (if c.show_wirecount then .str (toString c.wirecount ++ "x")
              else .none),
             (if strTruthy c.gauge then .str (fstr c.gauge_str) else .none),
             (if c.shield then .str "+ S" else .none),
             (if c.length > 0 then
                .str (toString c.length ++ " " ++ fstr c.length_unit)
              else .none),
             itemOfOptStr (translate_color c.color harness_options.color_mode),
             itemOfOptTd (colorbar_cell c.color)]
  let image_caption := image_and_caption_cells component
  let line_image : Line := lineOfOptTd image_caption.1
  let line_image_caption : Line := lineOfOptTd image_caption.2
  let line_additional_component_table : Line := .scalar .none
  let line_notes : Line := .list [itemOfOptStr (html_line_breaks component.notes)]
  let line_ports : Line :=
    match component with
    | .connector c =>
      if c.style != some "simple" then .scalar (.table (gv_pin_table c))
      else .scalar .none
    | .cable c => .scalar (.table (gv_conductor_table c harness_options))
  let lines : List Line :=
    [line_name, line_pn, line_info, line_ports, line_image,
     line_image_caption, line_additional_component_table, line_notes]
  let tbl_bgcolor : Option (Option String) :=
    if strTruthy component.bgcolor then
      some (translate_color component.bgcolor "HEX")
    else
      match component with
      | .connector _ =>
        if strTruthy harness_options.bgcolor_connector then
          some (translate_color harness_options.bgcolor_connector "HEX")
        else none
      | .cable _ =>
        if strTruthy harness_options.bgcolor_cable then
          some (translate_color harness_options.bgcolor_cable "HEX")
        else none
  let tbl := nested_table lines
  let result : Except String Table :=
    match tbl_bgcolor with
    | some v => .ok (tbl.update_attribs [("bgcolor", v)])
    | none =>
      .error "UnboundLocalError: local variable tbl_bgcolor referenced before assignment"
  (result, component)

/-- Claim C8: `gv_node_component` leaves the component unchanged, except that
a connector with both `ports_left` and `ports_right` false gets `ports_left`
set to true — the single mutation of this module. -/
theorem C8_node_component_frame (component : Component)
    (harness_options : Options) :
    (gv_node_component component harness_options).2 =
      (match component with
       | .connector c =>
         if c.ports_left || c.ports_right then Component.connector c
         else Component.connector { c with ports_left := true }
       | .cable c => Component.cable c) := by
  cases component with
  | connector c =>
    cases hl : c.ports_left <;> cases hr : c.ports_right <;>
      simp [gv_node_component, hl, hr]
  | cable c => rfl

/-- Claim C10: whenever the component's own `bgcolor` is unset and the
matching render option (`bgcolor_connector` for a connector, `bgcolor_cable`
for a cable) is also unset, no branch assigns the background-color variable
and `gv_node_component` fails with the unbound-local error instead of
returning a table. -/
theorem C10_node_component_unbound_bgcolor (component : Component)
    (harness_options : Options)
    (h1 : strTruthy component.bgcolor = false)
    (h2 : strTruthy
        (match component with
         | .connector _ => harness_options.bgcolor_connector
         | .cable _ => harness_options.bgcolor_cable) = false) :
    (gv_node_component component harness_options).1 =
      .error "UnboundLocalError: local variable tbl_bgcolor referenced before assignment" := by
  cases component with
  | connector c =>
    simp only [Component.bgcolor] at h1
    simp only [] at h2
    cases hl : c.ports_left <;> cases hr : c.ports_right <;>
      simp [gv_node_component, hl, hr, Component.bgcolor, h1, h2]
  | cable c =>
    simp only [Component.bgcolor] at h1
    simp only [] at h2
    simp [gv_node_component, Component.bgcolor, h1, h2]

/-- Witness for C10 at a concrete connector with no background color and
options without a connector background. -/
theorem C10_node_component_unbound_bgcolor_witness :
    (gv_node_component (Component.connector connectorOnlyPn)
      { color_mode := "SHORT", bgcolor_connector := none,
        bgcolor_cable := none, _pad := false }).1 =
      .error "UnboundLocalError: local variable tbl_bgcolor referenced before assignment" :=
  C10_node_component_unbound_bgcolor (Component.connector connectorOnlyPn)
    { color_mode := "SHORT", bgcolor_connector := none,
      bgcolor_cable := none, _pad := false } rfl rfl

/-! ## Attribute tweak application

`apply_dot_tweaks` (lines 452-517) works on the raw graph-description text.
Its two regular expressions are embedded as deterministic matchers that follow
the Python engine's leftmost-greedy backtracking order for these specific
patterns. -/

/-- Embeds `.*\]$` with `re.S`: the remainder must end in `]`, optionally followed by
one final newline (Python's `$`). -/
def tailOK (rem : List Char) : Bool :=
  match rem.reverse with
  | ']' :: _ => true
  | '\n' :: ']' :: _ => true
  | _ => false

/-- The quoted alternative of the keyword pattern
`^\t*(")?((?(1)[^"]|[^ "])+)(?(1)") \[.*\]$`: a quote, a non-empty run of
non-quote characters, the closing quote, then ` [` and the tail. -/
def tryQuoted (cs : List Char) : Option String :=
  match cs with
  | '"' :: rest =>
    match rest.findIdx? (· == '"') with
    | some q =>
      if q == 0 then none
      else
        match rest.drop (q + 1) with
        | ' ' :: '[' :: rem2 =>
          if tailOK rem2 then some (String.mk (rest.take q)) else none
        | _ => none
    | none => none
  | _ => none

/-- The unquoted keyword alternative: a non-empty run of characters other
than space and quote, backtracking from the greedy maximal run, followed by
` [` and the tail. -/
def tryUnquotedAux (cs : List Char) : Nat → Option String
  | 0 => none
  | k + 1 =>
    match cs.drop (k + 1) with
    | ' ' :: '[' :: rem2 =>
      if tailOK rem2 then some (String.mk (cs.take (k + 1)))
      else tryUnquotedAux cs k
    | _ => tryUnquotedAux cs k

def tryUnquoted (cs : List Char) : Option String :=
  tryUnquotedAux cs (cs.takeWhile (fun c => !(c == ' ' || c == '"'))).length

/-- Try both keyword alternatives at a fixed position (the quoted one first,
as the optional quote group is greedy). -/
def matchKwAt (cs : List Char) : Option String :=
  match tryQuoted cs with
  | some kw => some kw
  | none => tryUnquoted cs

/-- Backtrack over the number of leading tabs consumed by `\t*`, longest
first. -/
def matchKwTabs (cs : List Char) : Nat → Option String
  | 0 => matchKwAt cs
  | t + 1 =>
    match matchKwAt (cs.drop (t + 1)) with
    | some kw => some kw
    | none => matchKwTabs cs t

/-- Embeds `re.match(r'^\t*(")?((?(1)[^"]|[^ "])+)(?(1)") \[.*\]$', entry, re.S)`,
returning group 2 (the possibly quoted keyword) on success. -/
def matchKeyword (entry : String) : Option String :=
  matchKwTabs entry.data (entry.data.takeWhile (· == '\t')).length

/-- The attribute-value alternative `("[^"]*"|[^] ]*)`: length of the value
at this position — a quoted string if one is closed, else the greedy run of
characters other than `]` and space. -/
def valueLen (cs : List Char) : Nat :=
  match cs with
  | '"' :: rest =>
    match rest.findIdx? (· == '"') with
    | some q => q + 2
    | none => (cs.takeWhile (fun c => !(c == ']' || c == ' '))).length
  | _ => (cs.takeWhile (fun c => !(c == ']' || c == ' '))).length

/-- Match `{attr}=VALUE` at this position; when the optional leading space
group did not participate, also consume the trailing `' '*` (the conditional
`(?(1)| *)`).  Returns the matched length. -/
def matchAfterSpaces (attr cs : List Char) (hasG1 : Bool) : Option Nat :=
  if (attr ++ ['=']).isPrefixOf cs then
    let rest := cs.drop (attr.length + 1)
    let vl := valueLen rest
    let tl := if hasG1 then 0
      else ((rest.drop vl).takeWhile (· == ' ')).length
    some (attr.length + 1 + vl + tl)
  else none

/-- Backtrack over the length of the optional leading space group `( +)?`,
longest first, finishing with the group absent. -/
def trySpaces (attr cs : List Char) : Nat → Option Nat
  | 0 => matchAfterSpaces attr cs false
  | s + 1 =>
    match matchAfterSpaces attr (cs.drop (s + 1)) true with
    | some n => some (s + 1 + n)
    | none => trySpaces attr cs s

/-- Match the removal pattern `( +)?{attr}=("[^"]*"|[^] ]*)(?(1)| *)` at this
position, returning the matched length. -/
def matchRemoveAt (attr cs : List Char) : Option Nat :=
  trySpaces attr cs (cs.takeWhile (· == ' ')).length

/-- Match the replacement pattern `{attr}=("[^"]*"|[^] ]*)` at this position,
returning the matched length. -/
def matchReplaceLen (attr cs : List Char) : Option Nat :=
  if (attr ++ ['=']).isPrefixOf cs then
    some (attr.length + 1 + valueLen (cs.drop (attr.length + 1)))
  else none

/-- The left-to-right scan of `re.subn` for the removal pattern, deleting
each match; `skip` counts characters of the current match still to drop. -/
def subnRemoveGo (attr : List Char) : Nat → List Char → List Char × Nat
  | _, [] => ([], 0)
  | s + 1, _ :: rest => subnRemoveGo attr s rest
  | 0, c :: rest =>
    match matchRemoveAt attr (c :: rest) with
    | some n =>
      let r := subnRemoveGo attr (n - 1) rest
      (r.1, r.2 + 1)
    | none =>
      let r := subnRemoveGo attr 0 rest
      (c :: r.1, r.2)

/-- Embeds `re.subn(f'( +)?{attr}=("[^"]*"|[^] ]*)(?(1)| *)', "", entry)`. -/
def subnRemove (attr : List Char) (cs : List Char) : List Char × Nat :=
  subnRemoveGo attr 0 cs

/-- The left-to-right scan of `re.subn` for the replacement pattern,
substituting `repl` for each match. -/
def subnReplaceGo (attr repl : List Char) : Nat → List Char → List Char × Nat
  | _, [] => ([], 0)
  | s + 1, _ :: rest => subnReplaceGo attr repl s rest
  | 0, c :: rest =>
    match matchReplaceLen attr (c :: rest) with
    | some n =>
      let r := subnReplaceGo attr repl (n - 1) rest
      (repl ++ r.1, r.2 + 1)
    | none =>
      let r := subnReplaceGo attr repl 0 rest
      (c :: r.1, r.2)

/-- Embeds `re.subn(f'{attr}=("[^"]*"|[^] ]*)', f"{attr}={value}", entry)`. -/
def subnReplace (attr repl cs : List Char) : List Char × Nat :=
  subnReplaceGo attr repl 0 cs

/-- Embeds `value.replace('"', r'\"')`. -/
def escapeQuotes : List Char → List Char
  | [] => []
  | '"' :: rest => '\\' :: '"' :: escapeQuotes rest
  | c :: rest => c :: escapeQuotes rest

/-- Embeds `re.sub(r"\]$", ins, entry)`: replace the final `]` (at the end, or
before one trailing newline) by `ins`. -/
def subEndBracket (ins : String) (entry : String) : String :=
  match entry.data.reverse with
  | ']' :: rest => String.mk ((ins.data.reverse ++ rest).reverse)
  | '\n' :: ']' :: rest =>
    String.mk (('\n' :: ins.data.reverse ++ rest).reverse)
  | _ => entry

/-- One attribute override applied to one entry (lines 479-506): removal when
the value is `None` — warning when not found or removed more than once — and
otherwise replacement (quoting values that are empty or contain spaces),
appending the attribute before the closing `]` when it was not present,
warning when overridden more than once.  Returns the rewritten entry and the
warnings printed. -/
def applyAttr (keyword attr : String) (value : Option String)
    (entry : String) : String × List String :=
  match value with
  | none =>
    let r := subnRemove attr.data entry.data
    let warns : List String :=
      if r.2 < 1 then
        ["Harness.create_graph() warning: " ++ attr ++ " not found in " ++
         keyword ++ "!"]
      else if r.2 > 1 then
        ["Harness.create_graph() warning: " ++ attr ++ " removed " ++
         toString r.2 ++ " times in " ++ keyword ++ "!"]
      else []
    (String.mk r.1, warns)
  | some v =>
    let v := if v.length == 0 || v.data.contains ' ' then
        "\"" ++ String.mk (escapeQuotes v.data) ++ "\""
      else v
    let r := subnReplace attr.data (attr.data ++ '=' :: v.data) entry.data
    if r.2 < 1 then
      (subEndBracket (" " ++ attr ++ "=" ++ v ++ "]") (String.mk r.1), [])
    else if r.2 > 1 then
      (String.mk r.1,
       ["Harness.create_graph() warning: " ++ attr ++ " overridden " ++
        toString r.2 ++ " times in " ++ keyword ++ "!"])
    else (String.mk r.1, [])

/-- The tweak specification: keyword → attribute → replacement-or-removal
overrides, plus an optional raw append (list or single block).  The dynamic
type checks of the source are enforced by these types. -/
inductive TweakAppend where
  | list (l : List String)
  | single (s : String)

structure Tweak where
  override : Option (List (String × List (String × Option String)))
  append : Option TweakAppend

/-- The generated graph description: its body lines. -/
structure GvDot where
  body : List String

/-- The override loop body for one entry of `dot.body` (lines 470-508): find
the possibly quoted keyword, skip the entry unless it is among the override
keys, then apply each attribute override in order. -/
def applyOverrideToEntry
    (ov : List (String × List (String × Option String)))
    (entry : String) : String × List String :=
  match (matchKeyword entry).bind
      (fun kw => (ov.lookup kw).map (fun attrs => (kw, attrs))) with
  | some (kw, attrs) =>
    attrs.foldl (fun acc p =>
      let r := applyAttr kw p.1 p.2 acc.1
      (r.1, acc.2 ++ r.2)) (entry, [])
  | none => (entry, [])

/-- Embeds `apply_dot_tweaks` (lines 452-517), returning the rewritten graph
description together with the warnings printed. -/
def apply_dot_tweaks (dot : GvDot) (tweak : Tweak) : GvDot × List String :=
  let step1 : List String × List String :=
    match tweak.override with
    | none => (dot.body, [])
    | some ov =>
      dot.body.foldl (fun acc entry =>
        let r := applyOverrideToEntry ov entry
        (acc.1 ++ [r.1], acc.2 ++ r.2)) ([], [])
  let body2 :=
    match tweak.append with
    | none => step1.1
    | some (.list l) => step1.1 ++ l
    | some (.single s) => step1.1 ++ [s]
  ({ body := body2 }, step1.2)

/-- The tweak removing attribute `color` from keyword `X`. -/
def tweakRemoveColorX : Tweak :=
  { override := some [("X", [("color", none)])], append := none }

/-- Counterexample to claim C7: when the declaration of keyword `X` appears
as two separate entries, each holding `color` once, both occurrences are
stripped but the warning list is empty — no "removed 2 times" warning is
logged, because the substitution count is taken per entry. -/
theorem C7_two_entries_counterexample :
    (apply_dot_tweaks { body := ["\tX [color=red]", "\tX [color=blue]"] }
        tweakRemoveColorX).1.body = ["\tX []", "\tX []"] ∧
    (apply_dot_tweaks { body := ["\tX [color=red]", "\tX [color=blue]"] }
        tweakRemoveColorX).2 = [] :=
  ⟨rfl, rfl⟩

theorem applyOverrideToEntry_singleton (kw a e : String) :
    applyOverrideToEntry [(kw, [(a, none)])] e =
      if matchKeyword e = some kw then applyAttr kw a none e else (e, []) := by
  simp only [applyOverrideToEntry]
  cases h : matchKeyword e with
  | none => simp [h]
  | some k2 =>
    by_cases hk : k2 = kw
    · subst hk
      simp [h, List.lookup, List.foldl]
    · have hbeq : (k2 == kw) = false := beq_eq_false_iff_ne.mpr hk
      simp [h, List.lookup, hbeq, hk]

theorem applyOverrideToEntry_removal (kw a e : String) :
    applyOverrideToEntry [(kw, [(a, none)])] e =
      (if matchKeyword e = some kw then
         String.mk (subnRemove a.data e.data).1
       else e,
       if matchKeyword e = some kw then
         (if (subnRemove a.data e.data).2 < 1 then
            ["Harness.create_graph() warning: " ++ a ++ " not found in " ++
             kw ++ "!"]
          else if (subnRemove a.data e.data).2 > 1 then
            ["Harness.create_graph() warning: " ++ a ++ " removed " ++
             toString (subnRemove a.data e.data).2 ++ " times in " ++ kw ++ "!"]
          else [])
       else []) := by
  rw [applyOverrideToEntry_singleton]
  split
  · rfl
  · rfl

theorem tweakFoldl_eq (ov : List (String × List (String × Option String)))
    (body : List String) (acc1 acc2 : List String) :
    body.foldl (fun acc entry =>
      let r := applyOverrideToEntry ov entry
      (acc.1 ++ [r.1], acc.2 ++ r.2)) (acc1, acc2) =
    (acc1 ++ body.map (fun e => (applyOverrideToEntry ov e).1),
     acc2 ++ (body.map (fun e => (applyOverrideToEntry ov e).2)).flatten) := by
  induction body generalizing acc1 acc2 with
  | nil => simp
  | cons e es ih =>
    simp only [List.foldl, List.map, List.flatten]
    rw [ih]
    simp

/-- Claim C7 as amended: for every tweak removing one attribute (value
`None`) from one keyword, `apply_dot_tweaks` rewrites each body entry whose
declaration matches that keyword by deleting every match of the removal
pattern inside it, leaves the other entries unchanged, and logs warnings per
entry in body order — a not-found warning when the pattern matched zero times
in that entry, no warning when it matched exactly once, and a warning saying
the attribute was removed n times when it matched n ≥ 2 times within that
single entry.  In particular the single entry `"\tX [color=red color=blue]"`
(two matches) has both occurrences stripped and yields the "removed 2 times"
warning, while the keyword declared as two separate entries, each matching
once, has both occurrences stripped with no warning logged. -/
theorem C7_remove_per_entry_amended :
    (∀ (kw a : String) (body : List String),
      apply_dot_tweaks { body := body }
          { override := some [(kw, [(a, none)])], append := none } =
        ({ body := body.map (fun e =>
             if matchKeyword e = some kw then
               String.mk (subnRemove a.data e.data).1
             else e) },
         (body.map (fun e =>
             if matchKeyword e = some kw then
               (if (subnRemove a.data e.data).2 < 1 then
                  ["Harness.create_graph() warning: " ++ a ++
                   " not found in " ++ kw ++ "!"]
                else if (subnRemove a.data e.data).2 > 1 then
                  ["Harness.create_graph() warning: " ++ a ++ " removed " ++
                   toString (subnRemove a.data e.data).2 ++ " times in " ++
                   kw ++ "!"]
                else [])
             else [])).flatten)) ∧
    ((apply_dot_tweaks { body := ["\tX [color=red color=blue]"] }
        tweakRemoveColorX).1.body = ["\tX []"] ∧
     (apply_dot_tweaks { body := ["\tX [color=red color=blue]"] }
        tweakRemoveColorX).2 =
       ["Harness.create_graph() warning: color removed 2 times in X!"]) ∧
    ((apply_dot_tweaks { body := ["\tX [color=red]", "\tX [color=blue]"] }
        tweakRemoveColorX).1.body = ["\tX []", "\tX []"] ∧
     (apply_dot_tweaks { body := ["\tX [color=red]", "\tX [color=blue]"] }
        tweakRemoveColorX).2 = []) := by
  refine ⟨?_, ⟨rfl, rfl⟩, ⟨rfl, rfl⟩⟩
  intro kw a body
  simp only [apply_dot_tweaks]
  rw [tweakFoldl_eq]
  simp only [applyOverrideToEntry_removal, List.nil_append]

end WirevizGv
